import Mathlib

/-!
# Verification of the Data Analytics Assistant core

A shallow embedding of the repository's Python modules
(`src/dataset_analyzer.py`, `src/chart_generator.py`,
`src/dataset_handler.py`, `src/chat_service.py`, `server.py`) together
with theorems settling the specification claims about them.

Modelling conventions:
* A pandas `DataFrame` is a list of named, typed columns of cells plus a
  row count.  Cells are `null` (NaN/None), exact rationals (numeric
  scalars), or strings.  Binary floating point is abstracted by `ℚ`.
* Python's in-place mutation of `self` is modelled by explicit state
  passing: a method that can mutate its object returns the result
  together with the updated object state.
* Calls into external services (the filesystem, the pandas parsers, the
  hosted LLM chat endpoints) are modelled as oracle parameters, since
  those collaborators are outside the repository.
-/

namespace DataAssistant

/-- One scalar cell of a DataFrame: missing (NaN/None), numeric, or text. -/
inductive Cell where
  | null
  | num (x : ℚ)
  | str (s : String)
deriving DecidableEq, Repr

/-- The pandas dtype of a column, restricted to the kinds the program
distinguishes (`select_dtypes(include=["number"])` and
`select_dtypes(include=['object', 'category'])`). -/
inductive DType where
  | int64
  | float64
  | object
  | category
  | bool64
deriving DecidableEq, Repr

/-- Whether pandas `select_dtypes(include=["number"])` keeps this dtype. -/
def DType.isNumeric : DType → Bool
  | .int64 => true
  | .float64 => true
  | _ => false

/-- Whether pandas `select_dtypes(include=['object', 'category'])` keeps
this dtype. -/
def DType.isCategorical : DType → Bool
  | .object => true
  | .category => true
  | _ => false

/-- The string pandas prints for the dtype (`str(dtype)`). -/
def DType.toStr : DType → String
  | .int64 => "int64"
  | .float64 => "float64"
  | .object => "object"
  | .category => "category"
  | .bool64 => "bool"

/-- One named column of a DataFrame. -/
structure Column where
  name : String
  dtype : DType
  cells : List Cell
deriving DecidableEq, Repr

/-- A pandas DataFrame: ordered named columns and the row count
(`len(df)`).  Every column's cell list has length `nrows`; the claims
settled here never need that invariant, so it is not carried. -/
structure DataFrame where
  cols : List Column
  nrows : ℕ
deriving DecidableEq, Repr

/-- `list(df.columns)`. -/
def DataFrame.columnNames (df : DataFrame) : List String :=
  df.cols.map Column.name

/-- The columns kept by `df.select_dtypes(include=["number"])`, in order. -/
def DataFrame.numericColumns (df : DataFrame) : List Column :=
  df.cols.filter fun c => c.dtype.isNumeric

/-- The columns kept by `df.select_dtypes(include=['object', 'category'])`. -/
def DataFrame.categoricalColumns (df : DataFrame) : List Column :=
  df.cols.filter fun c => c.dtype.isCategorical

/-- `df.cols` lookup by name, i.e. `df[name]` (first match). -/
def DataFrame.colByName (df : DataFrame) (n : String) : Option Column :=
  df.cols.find? fun c => c.name == n

/-- The cells of column `n`, or `[]` when no such column exists. -/
def DataFrame.colCells (df : DataFrame) (n : String) : List Cell :=
  match df.colByName n with
  | some c => c.cells
  | none => []

/-- Whether a cell is missing (`isnull`). -/
def Cell.isNull : Cell → Bool
  | .null => true
  | _ => false

/-- The numeric value of a cell, when it has one. -/
def Cell.numVal : Cell → Option ℚ
  | .num x => some x
  | _ => none

/-- A Python number as stored in a dict: `int` or `float`.  The program
stores the literal `0` (an int) on one branch and a rounded float on the
other, so the distinction is kept. -/
inductive PyNum where
  | int (n : ℤ)
  | float (q : ℚ)
deriving DecidableEq, Repr

/-- Python `round(x, 2)` on the rational abstraction of a float
(half-even rounding of the underlying binary float is abstracted to
rounding of the exact rational). -/
def roundTo2 (x : ℚ) : ℚ :=
  (round (x * 100) : ℤ) / 100

/-! ## dataset_analyzer.py : DatasetAnalyzer -/

/-- The per-column record built by
`DatasetAnalyzer.get_empty_data_stats`. -/
structure EmptyStat where
  null_count : ℕ
  empty_string_count : ℕ
  total_empty : ℕ
  percentage : PyNum
deriving DecidableEq, Repr

/-- `DatasetAnalyzer.get_empty_data_stats`, as a pure function of the
DataFrame (the method reads only `self.df`).  Per column: the null
count, the count of exact empty strings for object-typed columns, their
sum, and `round(total / row_count * 100, 2)` guarded by
`row_count > 0` (else the int `0`). -/
def get_empty_data_stats (df : DataFrame) : List (String × EmptyStat) :=
  df.cols.map fun col =>
    let null_count := (col.cells.filter Cell.isNull).length
    let empty_count :=
      if col.dtype = .object then
        (col.cells.filter fun c => c = .str "").length
      else 0
    let total_empty := null_count + empty_count
    (col.name,
      { null_count := null_count
        empty_string_count := empty_count
        total_empty := total_empty
        percentage :=
          if 0 < df.nrows then
            .float (roundTo2 ((total_empty : ℚ) / (df.nrows : ℚ) * 100))
          else .int 0 })

/-- `DatasetAnalyzer.get_column_types`:
column name → `str(dtype)`. -/
def get_column_types (df : DataFrame) : List (String × String) :=
  df.cols.map fun c => (c.name, c.dtype.toStr)

/-- A statistic value as produced by `describe()` after the program's
`float(v) if pd.notna(v) else None` conversion: either an exact rational
or the square root of one (the sample standard deviation). -/
inductive RVal where
  | q (x : ℚ)
  | sqrt (x : ℚ)
deriving DecidableEq, Repr

/-- The non-null numeric values of a column (`describe` skips NaN). -/
def Column.numericValues (c : Column) : List ℚ :=
  c.cells.filterMap Cell.numVal

/-- pandas' linear-interpolation quantile of a sorted nonempty list. -/
def quantileSorted (xs : List ℚ) (q : ℚ) : ℚ :=
  let n := xs.length
  let pos := q * ((n : ℚ) - 1)
  let i := pos.floor.toNat
  let frac := pos - (i : ℚ)
  let lo := xs.getD i 0
  let hi := xs.getD (i + 1) lo
  lo + frac * (hi - lo)

/-- One column of `numeric_df.describe().to_dict()` after the NaN → None
conversion: the eight statistics in pandas' fixed order.  `mean`,
`min`, the quartiles and `max` are `None` when no values exist, and the
sample standard deviation (ddof = 1) is `None` when fewer than two
values exist — those are exactly the entries pandas reports as NaN. -/
def describeColumn (vals : List ℚ) : List (String × Option RVal) :=
  let n := vals.length
  let sorted := vals.insertionSort (fun a b => a ≤ b)
  let mean := vals.sum / (n : ℚ)
  let variance := (vals.map fun x => (x - mean) ^ 2).sum / ((n : ℚ) - 1)
  [("count", some (.q (n : ℚ))),
   ("mean", if n = 0 then none else some (.q mean)),
   ("std", if n ≤ 1 then none else some (.sqrt variance)),
   ("min", if n = 0 then none else some (.q (sorted.getD 0 0))),
   ("25%", if n = 0 then none else some (.q (quantileSorted sorted (1/4)))),
   ("50%", if n = 0 then none else some (.q (quantileSorted sorted (1/2)))),
   ("75%", if n = 0 then none else some (.q (quantileSorted sorted (3/4)))),
   ("max", if n = 0 then none else some (.q (sorted.getD (n - 1) 0)))]

/-- `DatasetAnalyzer.get_basic_stats`.  The guard is pandas
`numeric_df.empty`, which is true when **any** axis of
`df.select_dtypes(include=["number"])` has length 0 — that is, when
there are no numeric columns **or** no rows. -/
def get_basic_stats (df : DataFrame) : List (String × List (String × Option RVal)) :=
  let numeric := df.numericColumns
  if numeric.isEmpty || df.nrows = 0 then []
  else numeric.map fun c => (c.name, describeColumn c.numericValues)

/-- One record of `df.head(5).to_dict(orient="records")`. -/
def sampleData (df : DataFrame) : List (List (String × Cell)) :=
  (List.range (min 5 df.nrows)).map fun i =>
    df.cols.map fun c => (c.name, c.cells.getD i .null)

/-- The dict built by `DatasetAnalyzer.get_summary`, field for field. -/
structure Summary where
  row_count : ℕ
  column_count : ℕ
  columns : List String
  column_types : List (String × String)
  empty_data : List (String × EmptyStat)
  basic_stats : List (String × List (String × Option RVal))
  sample_data : List (List (String × Cell))
deriving DecidableEq, Repr

/-- The summary dict computed (on a cache miss) by
`DatasetAnalyzer.get_summary`. -/
def computeSummary (df : DataFrame) : Summary :=
  { row_count := df.nrows
    column_count := df.cols.length
    columns := df.columnNames
    column_types := get_column_types df
    empty_data := get_empty_data_stats df
    basic_stats := get_basic_stats df
    sample_data := sampleData df }

/-- The mutable state of a `DatasetAnalyzer` object: the DataFrame it
was constructed with and the `_summary_cache` field. -/
structure AnalyzerState where
  df : DataFrame
  summaryCache : Option Summary
deriving DecidableEq, Repr

/-- `DatasetAnalyzer.__init__`: stores the DataFrame, cache empty. -/
def AnalyzerState.init (df : DataFrame) : AnalyzerState :=
  { df := df, summaryCache := none }

/-- `DatasetAnalyzer.get_summary`: fills `_summary_cache` on first use
and afterwards returns the cached dict unchanged.  Returns the result
together with the updated object state. -/
def get_summary (a : AnalyzerState) : Summary × AnalyzerState :=
  match a.summaryCache with
  | some s => (s, a)
  | none =>
    let s := computeSummary a.df
    (s, { a with summaryCache := some s })

/-- Fixed two-decimal rendering, modelling Python's `f"{value:.2f}"`
(the half-even rounding of the binary float is abstracted to rounding of
the exact rational). -/
def formatFixed2 (x : ℚ) : String :=
  let n : ℤ := round (x * 100)
  let sign := if n < 0 then "-" else ""
  let m := n.natAbs
  let fracPart := m % 100
  let fracStr := if fracPart < 10 then "0" ++ toString fracPart else toString fracPart
  sign ++ toString (m / 100) ++ "." ++ fracStr

/-- Two-decimal approximation of the square root of a nonnegative
rational, used to render the standard deviation. -/
def sqrtApprox (x : ℚ) : ℚ :=
  (Nat.sqrt (x * 10000).floor.toNat : ℚ) / 100

/-- `f"{value:.2f}"` applied to a statistic value. -/
def RVal.format2 : RVal → String
  | .q x => formatFixed2 x
  | .sqrt x => formatFixed2 (sqrtApprox x)

/-- Python `str` of the dict values stored for `percentage`: ints print
bare, floats with their decimal expansion (which here always has at most
two decimals and at least one, as Python float repr keeps a `.0`). -/
def PyNum.toStr : PyNum → String
  | .int n => toString n
  | .float q =>
    let n : ℤ := round (q * 100)
    let sign := if n < 0 then "-" else ""
    let m := n.natAbs
    if m % 100 = 0 then sign ++ toString (m / 100) ++ ".0"
    else if m % 10 = 0 then
      sign ++ toString (m / 100) ++ "." ++ toString (m % 100 / 10)
    else
      let fracPart := m % 100
      let fracStr := if fracPart < 10 then "0" ++ toString fracPart else toString fracPart
      sign ++ toString (m / 100) ++ "." ++ fracStr

/-- Python `str` of a cell as it appears in a sample record.  The
shortest-roundtrip repr of binary floats is abstracted to the `ℚ` repr;
NaN/None both render as `"nan"`.  Any fixed choice here preserves the
determinism and layout properties proved below. -/
def Cell.toStr : Cell → String
  | .null => "nan"
  | .num q => if q.den = 1 then toString q.num else toString q
  | .str s => s

/-- Default record used when a lookup that cannot fail is totalised. -/
def EmptyStat.default : EmptyStat :=
  { null_count := 0, empty_string_count := 0, total_empty := 0
    percentage := .int 0 }

/-- The `- col (dtype): N empty values (P%)` lines of the summary text. -/
def columnTypeLines (s : Summary) : List String :=
  s.column_types.map fun ct =>
    let e := ((s.empty_data.lookup ct.1).getD EmptyStat.default)
    "- " ++ ct.1 ++ " (" ++ ct.2 ++ "): " ++ toString e.total_empty ++
      " empty values (" ++ e.percentage.toStr ++ "%)"

/-- The pipe-delimited sample table (emitted only when sample rows
exist): header row of column names, a 50-dash rule, then one row per
sample record via `str(row.get(c, ""))`. -/
def sampleLines (s : Summary) : List String :=
  if s.sample_data.isEmpty then []
  else
    (String.intercalate " | " s.columns) ::
    String.mk (List.replicate 50 '-') ::
    s.sample_data.map fun row =>
      String.intercalate " | "
        (s.columns.map fun c =>
          match row.lookup c with
          | some v => v.toStr
          | none => "")

/-- The numerical-statistics lines (emitted only when basic stats
exist): per column a `\n`-prefixed name line, then one indented line per
non-None statistic, rendered to two decimals. -/
def statLines (s : Summary) : List String :=
  if s.basic_stats.isEmpty then []
  else
    "" :: "=== NUMERICAL COLUMN STATISTICS ===" ::
    (s.basic_stats.map fun cs =>
      ("\n" ++ cs.1 ++ ":") ::
      cs.2.filterMap fun sv =>
        match sv.2 with
        | some v => some ("  " ++ sv.1 ++ ": " ++ v.format2)
        | none => none).flatten

/-- The full line list built by `DatasetAnalyzer.get_summary_text`,
section for section in the source's order. -/
def summaryTextLines (s : Summary) : List String :=
  ["=== DATASET SUMMARY ===",
   "Total Rows: " ++ toString s.row_count,
   "Total Columns: " ++ toString s.column_count,
   "",
   "=== COLUMNS AND TYPES ==="]
  ++ columnTypeLines s
  ++ ["", "=== SAMPLE DATA (first 5 rows) ==="]
  ++ sampleLines s
  ++ statLines s

/-- The text `get_summary_text` renders from a summary dict:
`"\n".join(lines)`. -/
def renderSummaryText (s : Summary) : String :=
  String.intercalate "\n" (summaryTextLines s)

/-- `DatasetAnalyzer.get_summary_text`: obtains the (possibly cached)
summary — which can populate the cache, hence the state — and renders
it. -/
def get_summary_text (a : AnalyzerState) : String × AnalyzerState :=
  let (s, a') := get_summary a
  (renderSummaryText s, a')

/-! ## chart_generator.py : ChartGenerator -/

/-- The chart-configuration dict handled by `ChartGenerator`: the
`type`/`title`/`description` strings plus the optional per-type field
references (`config.get(...)` returns `None` when absent). -/
structure ChartConfig where
  ctype : String
  x : Option String := none
  y : Option String := none
  column : Option String := none
  values : Option String := none
  title : String
  description : String
deriving DecidableEq, Repr

/-- The histogram spec appended by `_fallback_suggestions` for the
first numeric column. -/
def histogramSpec (col : String) : ChartConfig :=
  { ctype := "histogram"
    column := some col
    title := "Distribution of " ++ col
    description := "Shows the distribution of " ++ col ++ " values" }

/-- The bar spec appended by `_fallback_suggestions` (x = first
categorical column, y = first numeric column). -/
def barSpec (catCol numCol : String) : ChartConfig :=
  { ctype := "bar"
    x := some catCol
    y := some numCol
    title := numCol ++ " by " ++ catCol
    description := "Compares " ++ numCol ++ " across " ++ catCol ++ " categories" }

/-- The scatter spec appended by `_fallback_suggestions` (the first two
numeric columns). -/
def scatterSpec (c1 c2 : String) : ChartConfig :=
  { ctype := "scatter"
    x := some c1
    y := some c2
    title := c1 ++ " vs " ++ c2
    description := "Shows relationship between " ++ c1 ++ " and " ++ c2 }

/-- `ChartGenerator._fallback_suggestions`: histogram of the first
numeric column if one exists, then a bar chart if a categorical and a
numeric column exist, then a scatter if at least two numeric columns
exist, truncated to 3. -/
def fallback_suggestions (df : DataFrame) : List ChartConfig :=
  let numeric_cols := df.numericColumns.map Column.name
  let categorical_cols := df.categoricalColumns.map Column.name
  let charts :=
    (match numeric_cols with
     | [] => []
     | n :: _ => [histogramSpec n])
    ++
    (match categorical_cols, numeric_cols with
     | c :: _, n :: _ => [barSpec c n]
     | _, _ => [])
    ++
    (match numeric_cols with
     | n1 :: n2 :: _ => [scatterSpec n1 n2]
     | _ => [])
  charts.take 3

/-- `ChartGenerator.get_ai_suggestions`, with the LLM call and the
brace-delimited JSON extraction abstracted to an oracle: `some charts`
when a charts list was successfully extracted and parsed, `none` when
any step failed (transport error, no JSON, malformed JSON).  On success
the list is truncated to 3 (`[:3]`); on failure the fallback runs. -/
def get_ai_suggestions (aiOutcome : Option (List ChartConfig)) (df : DataFrame) :
    List ChartConfig :=
  match aiOutcome with
  | some charts => charts.take 3
  | none => fallback_suggestions df

/-- Lexicographic code-point comparison of character lists (the
ordering Python applies to strings). -/
def charListLe : List Char → List Char → Bool
  | [], _ => true
  | _ :: _, [] => false
  | a :: s, b :: t => if a = b then charListLe s t else decide (a < b)

/-- `s ≤ t` on strings, by code points. -/
def strLe (s t : String) : Bool :=
  charListLe s.toList t.toList

/-- Ordering used to model pandas' ascending sort of groupby keys;
total on cells (nulls never reach it: groupby drops NaN keys). -/
def cellLe (a b : Cell) : Bool :=
  match a, b with
  | .null, _ => true
  | _, .null => false
  | .num x, .num y => decide (x ≤ y)
  | .num _, .str _ => true
  | .str _, .num _ => false
  | .str s, .str t => strLe s t

/-- The distinct non-null keys of `df.groupby(x)`, in pandas' sorted
order. -/
def groupKeys (df : DataFrame) (x : String) : List Cell :=
  (((df.colCells x).filter fun c => !c.isNull).dedup).insertionSort
    fun a b => cellLe a b = true

/-- The mean pandas computes for one group of `groupby(x)[y].mean()`:
the mean of the non-NaN numeric `y` values of the rows whose `x` cell is
`k` (`none` models a NaN result for a group with no such values). -/
def groupMean (df : DataFrame) (x y : String) (k : Cell) : Option ℚ :=
  let pairs := (df.colCells x).zip (df.colCells y)
  let vals := (pairs.filter fun p => p.1 = k).filterMap fun p => p.2.numVal
  if vals.isEmpty then none else some (vals.sum / (vals.length : ℚ))

/-- The data plotted by `ChartGenerator._create_bar_chart` when its
column guard passes: `df.groupby(x)[y].mean().head(15)`. -/
def barChartData (df : DataFrame) (x y : String) : List (Cell × Option ℚ) :=
  ((groupKeys df x).map fun k => (k, groupMean df x y k)).take 15

/-- The rows plotted by `ChartGenerator._create_line_chart` when its
guard passes: `df[[x, y]].dropna().head(100)`. -/
def lineChartData (df : DataFrame) (x y : String) : List (Cell × Cell) :=
  (((df.colCells x).zip (df.colCells y)).filter
    fun p => !p.1.isNull && !p.2.isNull).take 100

/-- The points plotted by `ChartGenerator._create_scatter_chart` when
its guard passes: `df[[x, y]].dropna().head(500)`. -/
def scatterChartData (df : DataFrame) (x y : String) : List (Cell × Cell) :=
  (((df.colCells x).zip (df.colCells y)).filter
    fun p => !p.1.isNull && !p.2.isNull).take 500

/-- `df[column].value_counts().head(8)`: distinct non-null values with
their multiplicities, most frequent first (stable on ties). -/
def valueCounts8 (df : DataFrame) (column : String) : List (Cell × ℕ) :=
  let cells := df.colCells column
  let ks := (cells.filter fun c => !c.isNull).dedup
  ((ks.map fun k => (k, cells.count k)).insertionSort
    fun a b => b.2 ≤ a.2).take 8

/-- `df.groupby(column)[v].sum().head(8)`: the per-group sums of the
numeric `v` values, keys in sorted order. -/
def groupSums8 (df : DataFrame) (column v : String) : List (Cell × ℚ) :=
  ((groupKeys df column).map fun k =>
    let pairs := (df.colCells column).zip (df.colCells v)
    (k, ((pairs.filter fun p => p.1 = k).filterMap fun p => p.2.numVal).sum)).take 8

/-- The number of pie slices drawn by `ChartGenerator._create_pie_chart`
when its column guard passes: the `groupby(...).sum().head(8)` branch
when a values column is given and exists, else the
`value_counts().head(8)` branch. -/
def pieCategoryCount (df : DataFrame) (column : String) (valuesCol : Option String) : ℕ :=
  match valuesCol with
  | some v =>
    if (df.columnNames).contains v then (groupSums8 df column v).length
    else (valueCounts8 df column).length
  | none => (valueCounts8 df column).length

/-- Python `a or b` on optional strings: `None` and the empty string
are falsy, so either falls through to `b`. -/
def pyOr (a b : Option String) : Option String :=
  match a with
  | some s => if s = "" then b else some s
  | none => b

/-- The `x_col and y_col and x_col in self.df.columns and y_col in
self.df.columns` guard shared by the bar, line and scatter routines.
The first two conjuncts are Python truthiness: an absent field or an
empty-string column name fails the guard. -/
def xyGuard (df : DataFrame) (cfg : ChartConfig) : Bool :=
  match cfg.x, cfg.y with
  | some x, some y =>
    (x != "") && (y != "") && df.columnNames.contains x && df.columnNames.contains y
  | _, _ => false

/-- `config.get('column') or config.get('x')`, as the histogram and pie
routines read their column reference (Python `or`, so an empty-string
`column` falls through to `x`). -/
def histColumn (cfg : ChartConfig) : Option String :=
  pyOr cfg.column cfg.x

/-- The defensive guard each per-type render routine checks before
drawing anything: its referenced column names (and, for histograms, the
numeric dtype `pd.api.types.is_numeric_dtype` checks) must be present.
The if-chain mirrors the `if/elif` dispatch of `generate_chart`; types
outside it fall to the default branch, which needs no config fields. -/
def renderGuard (df : DataFrame) (cfg : ChartConfig) : Bool :=
  if cfg.ctype = "bar" then xyGuard df cfg
  else if cfg.ctype = "line" then xyGuard df cfg
  else if cfg.ctype = "histogram" then
    match histColumn cfg with
    | some c =>
      if c = "" then false
      else
        match df.colByName c with
        | some col => col.dtype.isNumeric
        | none => false
    | none => false
  else if cfg.ctype = "scatter" then xyGuard df cfg
  else if cfg.ctype = "pie" then
    match histColumn cfg with
    | some c => (c != "") && df.columnNames.contains c
    | none => false
  else true

/-- Every column name a chart config references. -/
def ChartConfig.columnRefs (cfg : ChartConfig) : List String :=
  cfg.x.toList ++ cfg.y.toList ++ cfg.column.toList ++ cfg.values.toList

/-! ## dataset_handler.py : load_dataset -/

/-- The typed error raised by `load_dataset`; each constructor carries
what the corresponding f-string interpolates, so the original failure is
wrapped, never swallowed. -/
inductive DatasetError where
  | fileNotFound (path : String)
  | unsupportedType (ext : String)
  | parseFailed (msg : String)
deriving DecidableEq, Repr

/-- The parser dispatch key of `config.SUPPORTED_EXTENSIONS`. -/
inductive FileType where
  | csv
  | excel
  | json
deriving DecidableEq, Repr

/-- `config.SUPPORTED_EXTENSIONS`, entry for entry. -/
def SUPPORTED_EXTENSIONS : List (String × FileType) :=
  [(".csv", .csv), (".xlsx", .excel), (".xls", .excel), (".json", .json)]

/-- The index of the last occurrence of `c` in a character list, if
any (Python `str.rfind`). -/
def lastIdxOf (c : Char) (cs : List Char) : Option ℕ :=
  ((List.range cs.length).filter fun i => cs.getD i ' ' = c).getLast?

/-- Python `str.lower()` on the ASCII range (as extensions are). -/
def lowerChar (c : Char) : Char :=
  if 'A' ≤ c ∧ c ≤ 'Z' then Char.ofNat (c.toNat + 32) else c

/-- Python `str.lower()`, character by character. -/
def lowerString (s : String) : String :=
  String.mk (s.toList.map lowerChar)

/-- The characters of the final path component (after the last `/`). -/
def baseNameChars (p : String) : List Char :=
  let cs := p.toList
  match lastIdxOf '/' cs with
  | some i => cs.drop (i + 1)
  | none => cs

/-- `pathlib.Path(p).suffix`: the extension of the final path component,
empty unless its last dot is strictly inside the name. -/
def pathSuffix (p : String) : String :=
  let name := baseNameChars p
  match lastIdxOf '.' name with
  | some i =>
    if 0 < i ∧ i + 1 < name.length then String.mk (name.drop i) else ""
  | none => ""

/-- Outcome of one `pd.read_csv(path, encoding=e)` call:
a DataFrame, a `UnicodeDecodeError` (caught and retried), or any other
exception with its message. -/
inductive CsvResult where
  | ok (df : DataFrame)
  | unicodeDecodeFailure
  | otherFailure (msg : String)
deriving DecidableEq, Repr

/-- The external collaborators `load_dataset` touches, as oracles: the
filesystem existence check and the pandas parsers (per path; the CSV
parser additionally per encoding, plus the final `errors="replace"`
attempt, which can only fail with a non-decode error). -/
structure LoadEnv where
  pathExists : String → Bool
  readCsv : String → String → CsvResult
  readCsvReplace : String → Except String DataFrame
  readExcel : String → Except String DataFrame
  readJson : String → Except String DataFrame

/-- The encoding cascade of the CSV branch: try each encoding in order,
retrying only on `UnicodeDecodeError`; if all fail to decode, read with
`errors="replace"`. -/
def csvCascade (env : LoadEnv) (p : String) : List String → Except String DataFrame
  | [] => env.readCsvReplace p
  | e :: rest =>
    match env.readCsv p e with
    | .ok df => .ok df
    | .unicodeDecodeFailure => csvCascade env p rest
    | .otherFailure msg => .error msg

/-- The outcome of the parse attempt `load_dataset` makes once the
extension is accepted, before wrapping: errors carry the original
exception's message. -/
def parseByType (env : LoadEnv) (p : String) : FileType → Except String DataFrame
  | .csv => csvCascade env p ["utf-8", "latin-1", "cp1252"]
  | .excel => env.readExcel p
  | .json => env.readJson p

/-- `dataset_handler.load_dataset`: raise `DatasetError` for a missing
path; lowercase the suffix and raise for an unsupported extension;
otherwise dispatch on the file type and wrap any parse exception in
`DatasetError`. -/
def load_dataset (env : LoadEnv) (file_path : String) : Except DatasetError DataFrame :=
  if env.pathExists file_path = false then
    .error (.fileNotFound file_path)
  else
    let extension := lowerString (pathSuffix file_path)
    match SUPPORTED_EXTENSIONS.lookup extension with
    | none => .error (.unsupportedType extension)
    | some file_type =>
      match parseByType env file_path file_type with
      | .ok df => .ok df
      | .error msg => .error (.parseFailed msg)

/-! ## chat_service.py : ChatService -/

/-- One turn of a conversation, a `{"role": ..., "content": ...}` dict. -/
structure Turn where
  role : String
  content : String
deriving DecidableEq, Repr

/-- `ChatService.SYSTEM_PROMPT_TEMPLATE.format(dataset_summary=...)`:
the fixed instruction block followed by the summary text and the
template's trailing newline. -/
def systemPromptFor (datasetSummary : String) : String :=
  "You are a helpful data analytics assistant. You have access to information about a dataset that the user has uploaded. Use this information to answer their questions accurately and helpfully.\n\nWhen answering questions:\n1. Base your answers on the actual data provided in the summary\n2. If you're not sure about something, say so\n3. Provide specific numbers and statistics when relevant\n4. Suggest additional analyses the user might find useful\n5. Be concise but thorough\n\nHere is the information about the current dataset:\n\n"
    ++ datasetSummary ++ "\n"

/-- The mutable state of a `ChatService` object: its analyzer (whose
summary cache `ask` can populate) and `conversation_history`. -/
structure ChatState where
  analyzer : AnalyzerState
  conversation_history : List Turn
deriving DecidableEq, Repr

/-- `ChatService.__init__`: empty history. -/
def ChatState.init (a : AnalyzerState) : ChatState :=
  { analyzer := a, conversation_history := [] }

/-- The external `GroqClient.chat` call, as an oracle from
(user message, system prompt, optional history) to the response text or
a raised exception's message. -/
def ChatClient : Type :=
  String → String → Option (List Turn) → Except String String

/-- `ChatService.ask`: builds the system prompt from the (possibly
cached) summary text, calls the client with the history (unless
suppressed), and only after a successful response appends the user turn
then the assistant turn.  A client exception propagates
(`Except.error`) and leaves the history as it was; the analyzer's
summary cache may be populated either way, since `_get_system_prompt`
runs before the call. -/
def ask (client : ChatClient) (st : ChatState) (question : String)
    (include_history : Bool) : Except String String × ChatState :=
  let history := if include_history then some st.conversation_history else none
  let (text, analyzer') := get_summary_text st.analyzer
  match client question (systemPromptFor text) history with
  | .error e => (.error e, { st with analyzer := analyzer' })
  | .ok response =>
    (.ok response,
      { analyzer := analyzer'
        conversation_history :=
          st.conversation_history ++
            [{ role := "user", content := question },
             { role := "assistant", content := response }] })

/-! ## server.py : session state and /api/clear -/

/-- The module-level `session_data` dict of `server.py`. -/
structure SessionData where
  analyzer : Option AnalyzerState
  chat_service : Option ChatState
  filename : Option String
  df : Option DataFrame
deriving DecidableEq, Repr

/-- The `clear` handler for `POST /api/clear`: sets the `analyzer`,
`chat_service` and `filename` keys to `None` and returns
`{'success': True}`.  (It does not touch the `df` key.) -/
def clearSession (s : SessionData) : SessionData × Bool :=
  ({ s with analyzer := none, chat_service := none, filename := none }, true)

/-! ## Concrete fixtures used to instantiate the theorems -/

/-- A text column of three names. -/
def nameCol : Column :=
  ⟨"name", .object, [.str "a", .str "b", .str "c"]⟩

/-- An integer column of three ages. -/
def ageCol : Column :=
  ⟨"age", .int64, [.num 1, .num 2, .num 3]⟩

/-- A small two-column frame: one text column, one numeric column. -/
def exampleDf : DataFrame :=
  ⟨[nameCol, ageCol], 3⟩

/-- A frame with a numeric column but zero rows. -/
def emptyRowsDf : DataFrame :=
  ⟨[⟨"x", .float64, []⟩], 0⟩

/-- A frame whose single numeric column is named the empty string, as
`pd.read_json` can produce (the CSV/Excel readers mangle empty
headers, the JSON reader does not). -/
def emptyNameDf : DataFrame :=
  ⟨[⟨"", .int64, [.num 1, .num 2]⟩], 2⟩

/-- A frame whose categorical column has nine distinct values. -/
def nineGroupsDf : DataFrame :=
  ⟨[⟨"c", .object, [.str "g1", .str "g2", .str "g3", .str "g4", .str "g5",
                    .str "g6", .str "g7", .str "g8", .str "g9"]⟩,
    ⟨"v", .int64, [.num 1, .num 1, .num 1, .num 1, .num 1,
                   .num 1, .num 1, .num 1, .num 1]⟩], 9⟩

/-- A load environment whose filesystem holds exactly `data.CSV`, whose
CSV parser succeeds only with the utf-8 encoding, and whose other
parsers always fail. -/
def exampleEnv : LoadEnv :=
  { pathExists := fun p => p == "data.CSV"
    readCsv := fun _ e => if e == "utf-8" then .ok exampleDf else .unicodeDecodeFailure
    readCsvReplace := fun _ => .error "replace failed"
    readExcel := fun _ => .error "excel failed"
    readJson := fun _ => .error "json failed" }

/-- A session holding a loaded dataset and all derived state. -/
def exampleSession : SessionData :=
  { analyzer := some (AnalyzerState.init exampleDf)
    chat_service := some (ChatState.init (AnalyzerState.init exampleDf))
    filename := some "data.csv"
    df := some exampleDf }

/-- A chat client that always raises. -/
def failingClient : ChatClient :=
  fun _ _ _ => .error "transport error"

/-- A chat client that always answers with a fixed string. -/
def okClient : ChatClient :=
  fun _ _ _ => .ok "the answer"

/-! # Theorems -/

/-- A numeric column is one of the frame columns. -/
theorem mem_cols_of_numeric {df : DataFrame} {c : Column}
    (h : c ∈ df.numericColumns) : c ∈ df.cols :=
  List.mem_of_mem_filter h

/-- A categorical column is one of the frame columns. -/
theorem mem_cols_of_categorical {df : DataFrame} {c : Column}
    (h : c ∈ df.categoricalColumns) : c ∈ df.cols :=
  List.mem_of_mem_filter h

/-- Columns selected as numeric have a numeric dtype. -/
theorem isNumeric_of_mem_numeric {df : DataFrame} {c : Column}
    (h : c ∈ df.numericColumns) : c.dtype.isNumeric = true :=
  by simpa using (List.mem_filter.mp h).2

/-- The name of any frame column occurs in `columnNames`. -/
theorem name_mem_columnNames {df : DataFrame} {c : Column}
    (h : c ∈ df.cols) : c.name ∈ df.columnNames :=
  List.mem_map_of_mem _ h

/-- With pairwise-distinct column names, looking a column up by its own
name finds it. -/
theorem find?_name_eq_of_nodup {l : List Column} {c : Column}
    (hnd : (l.map Column.name).Nodup) (hc : c ∈ l) :
    (l.find? fun d => d.name == c.name) = some c := by
  induction l with
  | nil => cases hc
  | cons a t ih =>
    rcases List.mem_cons.mp hc with rfl | hct
    · simp
    · have hne : a.name ≠ c.name := by
        intro he
        have hmem : c.name ∈ t.map Column.name := List.mem_map_of_mem _ hct
        rw [← he] at hmem
        exact (List.nodup_cons.mp hnd).1 hmem
      rw [List.find?_cons_of_neg _ (by simpa using hne)]
      exact ih (List.nodup_cons.mp hnd).2 hct

/-- C4: for every DataFrame, `get_empty_data_stats` reports
`percentage == 0` (the Python int `0`, no division) for every column
when the row count is zero, and otherwise reports the float
`round(total_empty / row_count * 100, 2)` for every column. -/
theorem get_empty_data_stats_percentage (df : DataFrame) :
    (df.nrows = 0 → ∀ p ∈ get_empty_data_stats df, p.2.percentage = PyNum.int 0) ∧
    (0 < df.nrows → ∀ p ∈ get_empty_data_stats df,
      p.2.percentage =
        PyNum.float (roundTo2 ((p.2.total_empty : ℚ) / (df.nrows : ℚ) * 100))) := by
  constructor
  · intro h p hp
    simp only [get_empty_data_stats, List.mem_map] at hp
    obtain ⟨col, _, rfl⟩ := hp
    simp [h]
  · intro h p hp
    simp only [get_empty_data_stats, List.mem_map] at hp
    obtain ⟨col, _, rfl⟩ := hp
    simp [h]

/-- C4 witness: on the concrete zero-row frame, the reported record for
its single column carries `percentage = 0`. -/
theorem get_empty_data_stats_percentage_witness :
    ((get_empty_data_stats emptyRowsDf).headD ("", EmptyStat.default)).2.percentage
      = PyNum.int 0 :=
  (get_empty_data_stats_percentage emptyRowsDf).1 rfl
    ((get_empty_data_stats emptyRowsDf).headD ("", EmptyStat.default)) (by decide)

/-- C5: `get_summary` computes its result at most once per analyzer
object: after a first call, a second call returns the identical cached
summary even when the underlying DataFrame is replaced out-of-band
between the calls. -/
theorem get_summary_cached (a : AnalyzerState) (mutated : DataFrame) :
    (get_summary { (get_summary a).2 with df := mutated }).1 = (get_summary a).1 := by
  cases h : a.summaryCache with
  | some s => simp [get_summary, h]
  | none => simp [get_summary, h]

/-- C8 counterexample: on a session holding a loaded dataset, the
`clear` handler leaves the `df` entry populated, so not all
dataset-derived state is removed from the session record. -/
theorem clearSession_counterexample :
    ¬ ((clearSession exampleSession).1.df = none) := by decide

/-- C8 (amended): `clear` resets the `analyzer`, `chat_service` and
`filename` entries of the session record to `None` and returns
`{'success': True}`, but leaves the `df` entry (the loaded DataFrame)
unchanged. -/
theorem clearSession_spec (s : SessionData) :
    clearSession s =
      ({ analyzer := none, chat_service := none, filename := none, df := s.df }, true) :=
  rfl

/-- C3 (amended): the per-type render routines bound the plotted data —
line charts plot at most 100 rows, scatter charts at most 500 points,
bar grouping at most 15 categories (not 8), and pie charts at most 8
categories. -/
theorem chart_data_caps (df : DataFrame) (x y pcol : String) (pvals : Option String) :
    (lineChartData df x y).length ≤ 100 ∧
    (scatterChartData df x y).length ≤ 500 ∧
    (barChartData df x y).length ≤ 15 ∧
    pieCategoryCount df pcol pvals ≤ 8 := by
  refine ⟨?_, ?_, ?_, ?_⟩
  · unfold lineChartData
    exact List.length_take_le _ _
  · unfold scatterChartData
    exact List.length_take_le _ _
  · unfold barChartData
    exact List.length_take_le _ _
  · unfold pieCategoryCount
    cases pvals with
    | none =>
      unfold valueCounts8
      exact List.length_take_le _ _
    | some v =>
      by_cases hv : (df.columnNames).contains v
      · simp only [hv, if_pos]
        unfold groupSums8
        exact List.length_take_le _ _
      · simp only [hv, if_neg]
        unfold valueCounts8
        exact List.length_take_le _ _

/-- C3 counterexample: a bar chart of a categorical column with nine
distinct values plots nine groups, so bar grouping is not capped at 8
categories. -/
theorem bar_grouping_cap8_counterexample :
    8 < (barChartData nineGroupsDf "c" "v").length := by decide

/-- C1 counterexample: a frame with one numeric column and zero rows —
`get_basic_stats` returns the empty mapping although a numeric column
exists, refuting the claimed iff. -/
theorem get_basic_stats_iff_counterexample :
    get_basic_stats emptyRowsDf = [] ∧ emptyRowsDf.numericColumns ≠ [] := by decide

/-- C1 (amended): `get_basic_stats` returns the empty mapping iff the
frame has zero numeric columns or zero rows; when numeric columns and
rows both exist it returns, for each numeric column, an entry holding
exactly count, mean, standard deviation, min, the three quartiles, and
max, in that order. -/
theorem get_basic_stats_spec (df : DataFrame) :
    (get_basic_stats df = [] ↔ (df.numericColumns = [] ∨ df.nrows = 0)) ∧
    (∀ c ∈ df.numericColumns, df.nrows ≠ 0 →
      (c.name, describeColumn c.numericValues) ∈ get_basic_stats df) ∧
    (∀ vals : List ℚ, (describeColumn vals).map Prod.fst =
      ["count", "mean", "std", "min", "25%", "50%", "75%", "max"]) := by
  refine ⟨?_, ?_, fun vals => rfl⟩
  · unfold get_basic_stats
    by_cases h2 : df.nrows = 0
    · simp [h2]
    · by_cases h1 : df.numericColumns = []
      · simp [h1, h2]
      · simp [h1, h2, List.map_eq_nil_iff]
  · intro c hc hr
    have hne : df.numericColumns ≠ [] := by
      intro hnil
      rw [hnil] at hc
      cases hc
    unfold get_basic_stats
    simp only [List.isEmpty_iff, hne, hr]
    simp [hne, hr]
    exact ⟨c, hc, rfl, rfl⟩

/-- C1 witness: on the concrete two-column frame the numeric column
`age` yields an entry of `get_basic_stats` with the eight statistics. -/
theorem get_basic_stats_spec_witness :
    ("age", describeColumn ageCol.numericValues) ∈ get_basic_stats exampleDf :=
  (get_basic_stats_spec exampleDf).2.1 ageCol (by decide) (by decide)

/-- C2: for a frame whose numeric columns are exactly `[n]` and whose
categorical columns are exactly `[c]`, the fallback suggestions are
exactly a histogram of `n` followed by a bar chart of `n` grouped by
`c`, never a scatter; and in general the fallback list is capped at 3
entries. -/
theorem fallback_single_numeric_categorical (df : DataFrame) (n c : Column)
    (hn : df.numericColumns = [n]) (hc : df.categoricalColumns = [c]) :
    fallback_suggestions df = [histogramSpec n.name, barSpec c.name n.name] ∧
    (∀ s ∈ fallback_suggestions df, s.ctype ≠ "scatter") ∧
    (∀ df2 : DataFrame, (fallback_suggestions df2).length ≤ 3) := by
  have h1 : fallback_suggestions df = [histogramSpec n.name, barSpec c.name n.name] := by
    unfold fallback_suggestions
    rw [hn, hc]
    rfl
  refine ⟨h1, ?_, ?_⟩
  · intro s hs
    rw [h1] at hs
    rcases List.mem_cons.mp hs with rfl | hs2
    · simp [histogramSpec]
    · rcases List.mem_cons.mp hs2 with rfl | hs3
      · simp [barSpec]
      · cases hs3
  · intro df2
    unfold fallback_suggestions
    exact List.length_take_le _ _

/-- C2 witness: on the concrete frame with numeric column `age` and
text column `name`, the fallback yields exactly the histogram then the
bar chart. -/
theorem fallback_single_numeric_categorical_witness :
    fallback_suggestions exampleDf = [histogramSpec "age", barSpec "name" "age"] :=
  (fallback_single_numeric_categorical exampleDf ageCol nameCol
    (by decide) (by decide)).1

/-- C6: `get_summary_text` is deterministic — two analyzer objects over
equal DataFrame contents render byte-identical text, and a repeated
call on the same object (now answering from the cache) renders the
same text again. -/
theorem get_summary_text_deterministic (a b : AnalyzerState)
    (hdf : a.df = b.df) (ha : a.summaryCache = none) (hb : b.summaryCache = none) :
    (get_summary_text a).1 = (get_summary_text b).1 ∧
    (get_summary_text (get_summary_text a).2).1 = (get_summary_text a).1 := by
  constructor
  · simp [get_summary_text, get_summary, ha, hb, hdf]
  · simp [get_summary_text, get_summary, ha]

/-- C6 witness: two fresh analyzers over the concrete frame render the
same text, also on a repeated call. -/
theorem get_summary_text_deterministic_witness :
    (get_summary_text (AnalyzerState.init exampleDf)).1 =
      (get_summary_text (AnalyzerState.init exampleDf)).1 ∧
    (get_summary_text (get_summary_text (AnalyzerState.init exampleDf)).2).1 =
      (get_summary_text (AnalyzerState.init exampleDf)).1 :=
  get_summary_text_deterministic
    (AnalyzerState.init exampleDf) (AnalyzerState.init exampleDf) rfl rfl rfl

/-- C7: `load_dataset` raises `DatasetError` exactly when the path does
not exist, when the lowercased extension is outside the supported set,
or when the dispatched parse fails — wrapping the original parse error
message — and on a successful parse returns its DataFrame. -/
theorem load_dataset_spec (env : LoadEnv) (p : String) :
    (env.pathExists p = false → load_dataset env p = .error (.fileNotFound p)) ∧
    (env.pathExists p = true →
      SUPPORTED_EXTENSIONS.lookup (lowerString (pathSuffix p)) = none →
      load_dataset env p = .error (.unsupportedType (lowerString (pathSuffix p)))) ∧
    (∀ ft, env.pathExists p = true →
      SUPPORTED_EXTENSIONS.lookup (lowerString (pathSuffix p)) = some ft →
      (∀ df, parseByType env p ft = .ok df → load_dataset env p = .ok df) ∧
      (∀ msg, parseByType env p ft = .error msg →
        load_dataset env p = .error (.parseFailed msg))) := by
  refine ⟨?_, ?_, ?_⟩
  · intro h
    simp [load_dataset, h]
  · intro h hl
    simp [load_dataset, h, hl]
  · intro ft h hl
    constructor
    · intro df hp
      simp [load_dataset, h, hl, hp]
    · intro msg hp
      simp [load_dataset, h, hl, hp]

/-- C7 witness: in the concrete environment, loading `data.CSV` (an
uppercase extension, exercising the case-insensitive dispatch)
succeeds with the parsed DataFrame. -/
theorem load_dataset_spec_witness :
    load_dataset exampleEnv "data.CSV" = .ok exampleDf :=
  ((load_dataset_spec exampleEnv "data.CSV").2.2 FileType.csv rfl (by decide)).1
    exampleDf rfl

/-- C9: `ask` is atomic with respect to the conversation — when the
chat client raises, the error propagates and the conversation history
is unchanged; when it answers, the returned value is exactly the
response text and the (user, assistant) pair is appended in that
order. -/
theorem ask_atomic (client : ChatClient) (st : ChatState) (q : String) (inc : Bool) :
    (∀ e, client q (systemPromptFor (get_summary_text st.analyzer).1)
        (if inc then some st.conversation_history else none) = .error e →
      (ask client st q inc).1 = .error e ∧
      (ask client st q inc).2.conversation_history = st.conversation_history) ∧
    (∀ r, client q (systemPromptFor (get_summary_text st.analyzer).1)
        (if inc then some st.conversation_history else none) = .ok r →
      (ask client st q inc).1 = .ok r ∧
      (ask client st q inc).2.conversation_history =
        st.conversation_history ++
          [{ role := "user", content := q }, { role := "assistant", content := r }]) := by
  constructor
  · intro e he
    simp [ask, he]
  · intro r hr
    simp [ask, hr]

/-- C9 witness: with a concrete always-raising client the error
propagates and the history stays empty; with a concrete always-ok
client the two turns are appended in order. -/
theorem ask_atomic_witness :
    ((ask failingClient (ChatState.init (AnalyzerState.init exampleDf)) "how many rows?" true).1
       = Except.error "transport error" ∧
     (ask failingClient (ChatState.init (AnalyzerState.init exampleDf)) "how many rows?" true).2.conversation_history
       = []) ∧
    ((ask okClient (ChatState.init (AnalyzerState.init exampleDf)) "how many rows?" true).2.conversation_history
       = [{ role := "user", content := "how many rows?" },
          { role := "assistant", content := "the answer" }]) :=
  ⟨(ask_atomic failingClient (ChatState.init (AnalyzerState.init exampleDf))
      "how many rows?" true).1 "transport error" rfl,
   ((ask_atomic okClient (ChatState.init (AnalyzerState.init exampleDf))
      "how many rows?" true).2 "the answer" rfl).2⟩

/-- C10 counterexample: on a frame whose numeric column is named the
empty string, the fallback emits a histogram spec for that column, yet
the render routine draws nothing — the Python-truthiness guard
`if column and column in self.df.columns` fails on the falsy name
`""` — so the defensive checks do not always pass for fallback
specs. -/
theorem fallback_guard_counterexample :
    histogramSpec "" ∈ fallback_suggestions emptyNameDf ∧
    renderGuard emptyNameDf (histogramSpec "") = false := by decide

/-- C10 (amended): every spec the fallback heuristic returns
references only column names present in the DataFrame, and the list
has length at most 3; the defensive guards of the per-type render
routines pass for every fallback spec provided the column names are
pairwise distinct and no column is named the empty string (an
empty-string name is falsy in Python, so the guard rejects it even
though the column exists). -/
theorem fallback_suggestions_safe (df : DataFrame) :
    (∀ s ∈ fallback_suggestions df, ∀ nm ∈ s.columnRefs, nm ∈ df.columnNames) ∧
    (fallback_suggestions df).length ≤ 3 ∧
    (df.columnNames.Nodup → "" ∉ df.columnNames →
      ∀ s ∈ fallback_suggestions df, renderGuard df s = true) := by
  have hshape : ∀ s ∈ fallback_suggestions df,
      (∃ c ∈ df.numericColumns, s = histogramSpec c.name) ∨
      (∃ c ∈ df.categoricalColumns, ∃ n ∈ df.numericColumns,
        s = barSpec c.name n.name) ∨
      (∃ n1 ∈ df.numericColumns, ∃ n2 ∈ df.numericColumns,
        s = scatterSpec n1.name n2.name) := by
    intro s hs
    unfold fallback_suggestions at hs
    replace hs := List.mem_of_mem_take hs
    cases hN : df.numericColumns with
    | nil =>
      rw [hN] at hs
      simp at hs
    | cons n0 ntail =>
      rw [hN] at hs
      cases hC : df.categoricalColumns with
      | nil =>
        rw [hC] at hs
        cases ntail with
        | nil =>
          simp at hs
          exact Or.inl ⟨n0, by simp, hs⟩
        | cons n1 nt2 =>
          simp at hs
          rcases hs with rfl | rfl
          · exact Or.inl ⟨n0, by simp, rfl⟩
          · exact Or.inr (Or.inr ⟨n0, by simp, n1, by simp, rfl⟩)
      | cons c0 ctail =>
        rw [hC] at hs
        cases ntail with
        | nil =>
          simp at hs
          rcases hs with rfl | rfl
          · exact Or.inl ⟨n0, by simp, rfl⟩
          · exact Or.inr (Or.inl ⟨c0, by simp, n0, by simp, rfl⟩)
        | cons n1 nt2 =>
          simp at hs
          rcases hs with rfl | rfl | rfl
          · exact Or.inl ⟨n0, by simp, rfl⟩
          · exact Or.inr (Or.inl ⟨c0, by simp, n0, by simp, rfl⟩)
          · exact Or.inr (Or.inr ⟨n0, by simp, n1, by simp, rfl⟩)
  have hnum_name : ∀ c ∈ df.numericColumns, c.name ∈ df.columnNames :=
    fun c hc => name_mem_columnNames (mem_cols_of_numeric hc)
  have hcat_name : ∀ c ∈ df.categoricalColumns, c.name ∈ df.columnNames :=
    fun c hc => name_mem_columnNames (mem_cols_of_categorical hc)
  refine ⟨?_, ?_, ?_⟩
  · intro s hs nm hnm
    rcases hshape s hs with ⟨c, hc, rfl⟩ | ⟨c, hc, n, hn, rfl⟩ | ⟨n1, h1, n2, h2, rfl⟩
    · simp only [ChartConfig.columnRefs, histogramSpec, Option.toList] at hnm
      simp at hnm
      rw [hnm]
      exact hnum_name c hc
    · simp only [ChartConfig.columnRefs, barSpec, Option.toList] at hnm
      simp at hnm
      rcases hnm with rfl | rfl
      · exact hcat_name c hc
      · exact hnum_name n hn
    · simp only [ChartConfig.columnRefs, scatterSpec, Option.toList] at hnm
      simp at hnm
      rcases hnm with rfl | rfl
      · exact hnum_name n1 h1
      · exact hnum_name n2 h2
  · unfold fallback_suggestions
    exact List.length_take_le _ _
  · intro hnd hempty s hs
    rcases hshape s hs with ⟨c, hc, rfl⟩ | ⟨c, hc, n, hn, rfl⟩ | ⟨n1, h1, n2, h2, rfl⟩
    · have hne : c.name ≠ "" := fun h => hempty (h ▸ hnum_name c hc)
      have hfind : df.colByName c.name = some c :=
        find?_name_eq_of_nodup hnd (mem_cols_of_numeric hc)
      simp only [renderGuard, histogramSpec, histColumn, pyOr]
      norm_num [hne]
      rw [hfind]
      exact isNumeric_of_mem_numeric hc
    · have hnec : c.name ≠ "" := fun h => hempty (h ▸ hcat_name c hc)
      have hnen : n.name ≠ "" := fun h => hempty (h ▸ hnum_name n hn)
      simp only [renderGuard, barSpec, xyGuard]
      norm_num [hnec, hnen]
      exact ⟨by simpa using hcat_name c hc, by simpa using hnum_name n hn⟩
    · have hne1 : n1.name ≠ "" := fun h => hempty (h ▸ hnum_name n1 h1)
      have hne2 : n2.name ≠ "" := fun h => hempty (h ▸ hnum_name n2 h2)
      simp only [renderGuard, scatterSpec, xyGuard]
      norm_num [hne1, hne2]
      exact ⟨by simpa using hnum_name n1 h1, by simpa using hnum_name n2 h2⟩

/-- C10 witness: on the concrete frame (distinct, nonempty column
names) the fallback specs reference only existing columns and pass the
render guards. -/
theorem fallback_suggestions_safe_witness :
    ("age" ∈ exampleDf.columnNames) ∧
    renderGuard exampleDf (histogramSpec "age") = true ∧
    renderGuard exampleDf (barSpec "name" "age") = true :=
  ⟨(fallback_suggestions_safe exampleDf).1 (histogramSpec "age") (by decide)
      "age" (by decide),
   (fallback_suggestions_safe exampleDf).2.2 (by decide) (by decide)
      (histogramSpec "age") (by decide),
   (fallback_suggestions_safe exampleDf).2.2 (by decide) (by decide)
      (barSpec "name" "age") (by decide)⟩

end DataAssistant
